import Mathlib

/-!
Verification of the credential & session core of the Modern Minimal App
backend (`src/main.py`, `src/schemas.py`).

Bytes are modelled as `Nat` values below 256, byte strings as `List Nat`.
Machine 32-bit arithmetic inside SHA-256 is `Nat` arithmetic reduced
modulo `2 ^ 32`.  Randomness (`secrets.token_hex`, `secrets.token_urlsafe`)
is modelled by passing the entropy source explicitly: a function
`Nat → Nat` supplying random bytes, and an opaque token string.
-/

namespace App

/-! ## Hex encoding and decoding (Python `bytes.hex` / `bytes.fromhex`) -/

def hexDigitChar (n : Nat) : Char :=
  if n < 10 then Char.ofNat (48 + n) else Char.ofNat (87 + n)

def byteToHex (b : Nat) : List Char :=
  [hexDigitChar (b / 16), hexDigitChar (b % 16)]

/-- Hex-encodes a byte string, lowercase, as Python `bytes.hex()`. -/
def toHex (l : List Nat) : String :=
  String.mk (l.flatMap byteToHex)

def hexVal (c : Char) : Option Nat :=
  if 48 ≤ c.toNat ∧ c.toNat ≤ 57 then some (c.toNat - 48)
  else if 97 ≤ c.toNat ∧ c.toNat ≤ 102 then some (c.toNat - 87)
  else if 65 ≤ c.toNat ∧ c.toNat ≤ 70 then some (c.toNat - 55)
  else none

def ofHexChars : List Char → Option (List Nat)
  | [] => some []
  | c1 :: c2 :: rest => do
    let hi ← hexVal c1
    let lo ← hexVal c2
    let tl ← ofHexChars rest
    pure ((16 * hi + lo) :: tl)
  | [_] => none

/-- Decodes a hex string into bytes; `none` on non-hex characters or odd
length, where Python `bytes.fromhex` raises `ValueError`. -/
def bytesFromHex (s : String) : Option (List Nat) :=
  ofHexChars s.data

/-! ## SHA-256 (semantics of `hashlib`'s sha256, used through PBKDF2) -/

def add32 (a b : Nat) : Nat := (a + b) % 4294967296

def rotr32 (n x : Nat) : Nat := x / 2 ^ n + x % 2 ^ n * 2 ^ (32 - n)

def shr32 (n x : Nat) : Nat := x / 2 ^ n

def smallSigma0 (x : Nat) : Nat :=
  Nat.xor (Nat.xor (rotr32 7 x) (rotr32 18 x)) (shr32 3 x)

def smallSigma1 (x : Nat) : Nat :=
  Nat.xor (Nat.xor (rotr32 17 x) (rotr32 19 x)) (shr32 10 x)

def bigSigma0 (x : Nat) : Nat :=
  Nat.xor (Nat.xor (rotr32 2 x) (rotr32 13 x)) (rotr32 22 x)

def bigSigma1 (x : Nat) : Nat :=
  Nat.xor (Nat.xor (rotr32 6 x) (rotr32 11 x)) (rotr32 25 x)

def chFn (x y z : Nat) : Nat :=
  Nat.xor (Nat.land x y) (Nat.land (Nat.xor x 4294967295) z)

def majFn (x y z : Nat) : Nat :=
  Nat.xor (Nat.xor (Nat.land x y) (Nat.land x z)) (Nat.land y z)

def shaK : List Nat :=
  [1116352408, 1899447441, 3049323471, 3921009573, 961987163,
   1508970993, 2453635748, 2870763221, 3624381080, 310598401,
   607225278, 1426881987, 1925078388, 2162078206, 2614888103,
   3248222580, 3835390401, 4022224774, 264347078, 604807628,
   770255983, 1249150122, 1555081692, 1996064986, 2554220882,
   2821834349, 2952996808, 3210313671, 3336571891, 3584528711,
   113926993, 338241895, 666307205, 773529912, 1294757372,
   1396182291, 1695183700, 1986661051, 2177026350, 2456956037,
   2730485921, 2820302411, 3259730800, 3345764771, 3516065817,
   3600352804, 4094571909, 275423344, 430227734, 506948616,
   659060556, 883997877, 958139571, 1322822218, 1537002063,
   1747873779, 1955562222, 2024104815, 2227730452, 2361852424,
   2428436474, 2756734187, 3204031479, 3329325298]

def shaH0 : List Nat :=
  [1779033703, 3144134277, 1013904242, 2773480762,
   1359893119, 2600822924, 528734635, 1541459225]

def bytesToWords : List Nat → List Nat
  | a :: b :: c :: d :: rest => (((a * 256 + b) * 256 + c) * 256 + d) :: bytesToWords rest
  | _ => []

def wordToBytes (w : Nat) : List Nat :=
  [w / 16777216 % 256, w / 65536 % 256, w / 256 % 256, w % 256]

/-- Extends a 16-word message schedule by `n` further words. -/
def extendSchedule (w : Array Nat) : Nat → Array Nat
  | 0 => w
  | Nat.succ k =>
    let w' := extendSchedule w k
    let i := w'.size
    w'.push (add32
      (add32 (smallSigma1 (w'.getD (i - 2) 0)) (w'.getD (i - 7) 0))
      (add32 (smallSigma0 (w'.getD (i - 15) 0)) (w'.getD (i - 16) 0)))

def shaRound (st : List Nat) (ki wi : Nat) : List Nat :=
  match st with
  | [a, b, c, d, e, f, g, h] =>
    let t1 := add32 h (add32 (bigSigma1 e) (add32 (chFn e f g) (add32 ki wi)))
    let t2 := add32 (bigSigma0 a) (majFn a b c)
    [add32 t1 t2, a, b, c, add32 d t1, e, f, g]
  | other => other

def compressBlock (hs : List Nat) (block : List Nat) : List Nat :=
  let w := extendSchedule (List.toArray (bytesToWords block)) 48
  let st := (List.zip shaK w.toList).foldl (fun s p => shaRound s p.1 p.2) hs
  List.zipWith add32 hs st

def lenBytes (l : Nat) : List Nat :=
  (List.range 8).map (fun i => 8 * l / 2 ^ (8 * (7 - i)) % 256)

def shaPad (msg : List Nat) : List Nat :=
  msg ++ 128 :: List.replicate ((119 - msg.length % 64) % 64) 0 ++ lenBytes msg.length

def chunks64 : List Nat → List (List Nat)
  | [] => []
  | x :: xs => ((x :: xs).take 64) :: chunks64 (xs.drop 63)
termination_by l => l.length
decreasing_by simp [List.length_drop]; omega

def sha256 (msg : List Nat) : List Nat :=
  ((chunks64 (shaPad msg)).foldl compressBlock shaH0).flatMap wordToBytes

/-! ## HMAC-SHA-256 and PBKDF2 (semantics of `hashlib.pbkdf2_hmac`) -/

def hmacSha256 (key msg : List Nat) : List Nat :=
  let k0 := if 64 < key.length then sha256 key else key
  let kPad := k0 ++ List.replicate (64 - k0.length) 0
  let ipad := kPad.map (fun b => Nat.xor b 0x36)
  let opad := kPad.map (fun b => Nat.xor b 0x5c)
  sha256 (opad ++ sha256 (ipad ++ msg))

def intBE4 (n : Nat) : List Nat :=
  [n / 16777216 % 256, n / 65536 % 256, n / 256 % 256, n % 256]

def pbkdf2Inner (password u acc : List Nat) : Nat → List Nat
  | 0 => acc
  | Nat.succ k =>
    let u' := hmacSha256 password u
    pbkdf2Inner password u' (List.zipWith Nat.xor acc u') k

/-- PBKDF2 with the HMAC-SHA-256 pseudorandom function and the default
derived-key length (one hash output, 32 bytes), as
`hashlib.pbkdf2_hmac('sha256', password, salt, iterations)`. -/
def pbkdf2HmacSha256 (password salt : List Nat) (iterations : Nat) : List Nat :=
  match iterations with
  | 0 => []
  | Nat.succ k =>
    let u1 := hmacSha256 password (salt ++ intBE4 1)
    pbkdf2Inner password u1 u1 k

/-- UTF-8 bytes of a string, as Python `str.encode()`. -/
def strBytes (s : String) : List Nat :=
  s.toUTF8.toList.map (fun b => b.toNat)

/-! ## Randomness (`secrets`), modelled with an explicit entropy source -/

/-- Byte string drawn from an entropy source: byte `i` is `rnd i % 256`. -/
def rndBytes (rnd : Nat → Nat) (nbytes : Nat) : List Nat :=
  (List.range nbytes).map (fun i => rnd i % 256)

/-- Hex string of `nbytes` random bytes, as `secrets.token_hex(nbytes)`. -/
def token_hex (nbytes : Nat) (rnd : Nat → Nat) : String :=
  toHex (rndBytes rnd nbytes)

/-! ## Errors surfaced by the handlers

`HTTPException(status_code, detail)` raised in `main.py` is `http`;
an uncaught Python exception escaping a handler (such as the `ValueError`
from `bytes.fromhex` on a non-hex salt) is `valueError`. -/

inductive AppError where
  | http (status : Nat) (detail : String)
  | valueError (msg : String)
  deriving DecidableEq, Repr

/-! ## Credential Manager: `hash_password` (src/main.py lines 25-29) -/

/-- Embedding of `hash_password(password, salt=None)`.  Python's
`if not salt:` is falsy both for `None` and for the empty string, so both
regenerate a fresh 16-byte hex salt from the entropy source; then
`hashlib.pbkdf2_hmac('sha256', password.encode(), bytes.fromhex(salt), 120_000)`
is hex-encoded and returned together with the salt.  `bytes.fromhex`
raising `ValueError` on a non-hex salt is the `.error` branch. -/
def hash_password (password : String) (salt : Option String) (rnd : Nat → Nat) :
    Except AppError (String × String) :=
  let s := match salt with
    | none => token_hex 16 rnd
    | some s0 => if s0 = "" then token_hex 16 rnd else s0
  match bytesFromHex s with
  | none => .error (.valueError "non-hexadecimal number found in fromhex() arg")
  | some sbytes =>
    .ok (toHex (pbkdf2HmacSha256 (strBytes password) sbytes 120000), s)

/-! ## Data model (src/schemas.py) -/

/-- The `User` collection schema (`schemas.py`).  `avatar_url` is never
set by any handler and omitted; `created_at` is a timestamp parameter. -/
structure User where
  name : String
  email : String
  password_hash : String
  salt : String
  created_at : Nat := 0
  is_active : Bool := true
  deriving DecidableEq, Repr

/-- The `BlogPost` collection schema (`schemas.py`). -/
structure BlogPost where
  title : String
  slug : String
  excerpt : Option String := none
  content : String
  author : String
  tags : List String := []
  cover_image : Option String := none
  published_at : Nat := 0
  deriving DecidableEq, Repr

/-- The `Inquiry` collection schema (`schemas.py`). -/
structure Inquiry where
  name : String
  email : String
  message : String
  status : String := "new"
  created_at : Nat := 0
  deriving DecidableEq, Repr

/-- The document store's collections.  `find_one` is `List.find?` (first
match under insertion order, Mongo's stable natural order); inserts
append. -/
structure Store where
  user : List User := []
  blogpost : List BlogPost := []
  inquiry : List Inquiry := []
  deriving DecidableEq, Repr

def emptyStore : Store := {}

/-- Modelled from the spec: `create_document` is defined in `database.py`,
which is not under src/.  Spec §4.3 `create`: inserts a new record into the
named collection and assigns and returns a fresh collection-scoped opaque
string identifier (the native id converted to a plain string).  Modelled as
appending the record and returning its insertion index as the id. -/
def create_document {α : Type} (coll : List α) (record : α) : List α × String :=
  (coll ++ [record], toString coll.length)

/-- The in-memory `TOKENS` map: session token → subject. -/
structure SessionSubject where
  email : String
  name : String
  deriving DecidableEq, Repr

abbrev Tokens : Type := List (String × SessionSubject)

/-! ## Request and response models (src/main.py) -/

structure SignupRequest where
  name : String
  email : String
  password : String
  deriving DecidableEq, Repr

structure LoginRequest where
  email : String
  password : String
  deriving DecidableEq, Repr

structure AuthResponse where
  token : String
  name : String
  email : String
  deriving DecidableEq, Repr

/-! ## Auth endpoints (src/main.py lines 97-131)

A handler returns the updated state together with `Except`: `.error`
models a raised exception, which aborts the handler before any further
writes, leaving the state components returned alongside it as they were. -/

/-- Embedding of the existence check on line 100 of `main.py`:
`db["user"].find_one({"email": payload.email}) if db else None`.
An unreachable store (`db = none`) yields `None`, the same value as
"no matching record". -/
def signup_existing_check (db : Option Store) (email : String) : Option User :=
  match db with
  | none => none
  | some st => st.user.find? (fun u => u.email == email)

/-- Embedding of the `signup` handler (lines 97-116), for an available
store.  Checks for an existing account by exact email match, rejects with
400 "Email already registered", otherwise hashes the password with a fresh
salt, inserts the account, and issues the session token `tok`. -/
def signup (st : Store) (tokens : Tokens) (payload : SignupRequest)
    (rnd : Nat → Nat) (tok : String) (now : Nat) :
    Store × Tokens × Except AppError AuthResponse :=
  match st.user.find? (fun u => u.email == payload.email) with
  | some _ => (st, tokens, .error (.http 400 "Email already registered"))
  | none =>
    match hash_password payload.password none rnd with
    | .error e => (st, tokens, .error e)
    | .ok (password_hash, salt) =>
      let user_doc : User :=
        { name := payload.name, email := payload.email,
          password_hash := password_hash, salt := salt,
          created_at := now, is_active := true }
      let (coll, _id) := create_document st.user user_doc
      let tokens' := (tok, ⟨payload.email, payload.name⟩) :: tokens
      ({st with user := coll}, tokens',
        .ok { token := tok, name := payload.name, email := payload.email })

/-- Embedding of the `login` handler (lines 118-131).  An unreachable
store (`db = none`) makes the user lookup yield `None`, indistinguishable
from an unknown email; both raise 401 "Invalid credentials", as does a
re-derived hash differing from the stored one.  A `ValueError` from
`hash_password` (non-hex stored salt) propagates uncaught. -/
def login (db : Option Store) (tokens : Tokens) (payload : LoginRequest)
    (rnd : Nat → Nat) (tok : String) :
    Tokens × Except AppError AuthResponse :=
  let user? : Option User := match db with
    | none => none
    | some st => st.user.find? (fun u => u.email == payload.email)
  match user? with
  | none => (tokens, .error (.http 401 "Invalid credentials"))
  | some user =>
    match hash_password payload.password (some user.salt) rnd with
    | .error e => (tokens, .error e)
    | .ok (computed_hash, _) =>
      if computed_hash = user.password_hash then
        let tokens' := (tok, ⟨user.email, user.name⟩) :: tokens
        (tokens', .ok { token := tok, name := user.name, email := user.email })
      else (tokens, .error (.http 401 "Invalid credentials"))

/-! ## Dashboard counts (src/main.py lines 152-154) -/

/-- Embedding of the dashboard's collection counts:
`db[coll].count_documents({}) if db else 0` — an unavailable store
silently counts as zero. -/
def dashboard_counts (db : Option Store) : Nat × Nat × Nat :=
  match db with
  | none => (0, 0, 0)
  | some st => (st.user.length, st.blogpost.length, st.inquiry.length)

/-! ## Blog endpoints (src/main.py lines 172-206) -/

structure BlogCreate where
  title : String
  slug : String
  excerpt : Option String := none
  content : String
  author : String
  tags : List String := []
  cover_image : Option String := none
  deriving DecidableEq, Repr

/-- `BlogPostSchema(**payload.model_dump())`: every schema field comes
from the payload, and `published_at` takes a fresh default timestamp. -/
def blogOfPayload (payload : BlogCreate) (now : Nat) : BlogPost :=
  { title := payload.title, slug := payload.slug, excerpt := payload.excerpt,
    content := payload.content, author := payload.author, tags := payload.tags,
    cover_image := payload.cover_image, published_at := now }

/-- `update_one({"slug": slug}, {"$set": blog.model_dump()})`: Mongo's
`$set` on the first record matching the slug; since the update document
carries every schema field, the whole record is overwritten. -/
def update_one_set : List BlogPost → String → BlogPost → List BlogPost
  | [], _, _ => []
  | b :: rest, slug, new =>
    if b.slug == slug then new :: rest else b :: update_one_set rest slug new

inductive BlogWriteResult where
  | created (id : String)
  | updated (slug : String)
  deriving DecidableEq, Repr

/-- Embedding of the `create_blog` handler (lines 197-206): upsert by
slug. -/
def create_blog (st : Store) (payload : BlogCreate) (now : Nat) :
    Store × BlogWriteResult :=
  let blog := blogOfPayload payload now
  match st.blogpost.find? (fun b => b.slug == payload.slug) with
  | some _ =>
    ({st with blogpost := update_one_set st.blogpost payload.slug blog},
      .updated payload.slug)
  | none =>
    let (coll, id) := create_document st.blogpost blog
    ({st with blogpost := coll}, .created id)

/-- Embedding of the `get_blog` handler (lines 189-195): an unavailable
store yields `None`, surfaced as 404 "Post not found". -/
def get_blog (db : Option Store) (slug : String) : Except AppError BlogPost :=
  match (match db with
         | none => none
         | some st => st.blogpost.find? (fun b => b.slug == slug)) with
  | none => .error (.http 404 "Post not found")
  | some doc => .ok doc

/-- Modelled from the spec: `get_documents` is defined in `database.py`,
which is not under src/.  Spec §4.3 `find_many`: returns up to `limit`
matching records in insertion order; a `limit` of zero or below is
treated as "use the default" (20), not as "zero results". -/
def get_documents (coll : List BlogPost) (limit : Int) : List BlogPost :=
  let eff : Int := if limit ≤ 0 then 20 else limit
  coll.take eff.toNat

/-- Embedding of the `list_blogs` handler (lines 181-187). -/
def list_blogs (st : Store) (limit : Int) : List BlogPost :=
  get_documents st.blogpost limit

/-! ## Seeding (src/main.py lines 220-247) -/

def sample1 : BlogCreate :=
  { title := "Designing With Purpose",
    slug := "designing-with-purpose",
    excerpt := some "Crafting interfaces that feel calm and intentional.",
    content := "# Designing With Purpose\n\nMinimalism isn't about less; it's about clarity...",
    author := "Flames Team",
    tags := ["design", "ux"],
    cover_image := none }

def sample2 : BlogCreate :=
  { title := "Subtle Motion, Big Impact",
    slug := "subtle-motion-big-impact",
    excerpt := some "Using micro-interactions to guide attention.",
    content := "# Subtle Motion\n\nMotion should support meaning, not distract...",
    author := "Flames Team",
    tags := ["motion", "ui"],
    cover_image := none }

def samples : List BlogCreate := [sample1, sample2]

def seedStep (now : Nat) (acc : Store × Nat) (s : BlogCreate) : Store × Nat :=
  let (st, created) := acc
  match st.blogpost.find? (fun b => b.slug == s.slug) with
  | some _ => (st, created)
  | none =>
    let (coll, _id) := create_document st.blogpost (blogOfPayload s now)
    ({st with blogpost := coll}, created + 1)

/-- Embedding of the `seed_content` handler (lines 220-247): for each
sample, creates a blog post only when no record with its slug exists, and
returns the count created. -/
def seed_content (st : Store) (now : Nat) : Store × Nat :=
  samples.foldl (seedStep now) (st, 0)

/-- The Account record inserted by a successful signup: the fresh salt is
drawn from the entropy source and the stored hash is derived from it. -/
def newUser (payload : SignupRequest) (rnd : Nat → Nat) (now : Nat) : User :=
  { name := payload.name
    email := payload.email
    password_hash :=
      toHex (pbkdf2HmacSha256 (strBytes payload.password) (rndBytes rnd 16) 120000)
    salt := token_hex 16 rnd
    created_at := now
    is_active := true }

/-! ## Concrete fixtures used by the claim witnesses -/

/-- Lowercasing of a string, character by character, used to state that
two emails are equal up to letter case. -/
def lowerStr (s : String) : String :=
  String.mk (s.data.map Char.toLower)

def c3User : User :=
  { name := "n", email := "a@b.c", password_hash := "x", salt := "00" }

def c3Store : Store := { user := [c3User] }

def c7User : User :=
  { name := "n", email := "a@b.c", password_hash := "h", salt := "00" }

def c7Store : Store := { user := [c7User] }

def c9User : User :=
  { name := "n", email := "e@x.com", password_hash := "h", salt := "zz" }

def c9Store : Store := { user := [c9User] }

def c6Req1 : SignupRequest := { name := "A", email := "Alice@x.com", password := "pw" }

def c6Req2 : SignupRequest := { name := "a", email := "alice@x.com", password := "pw" }

def c6User : User :=
  { name := "n", email := "a@b.c", password_hash := "h", salt := "00" }

def c6Store : Store := { user := [c6User] }

def c2Post : BlogPost :=
  { title := "t0", slug := "s0", content := "c0", author := "a0" }

def c2Store : Store := { blogpost := [c2Post] }

def c2Payload : BlogCreate :=
  { title := "t1", slug := "s0", content := "c1", author := "a1" }

/-! ## Helper lemmas: hex round trip -/

theorem hexVal_hexDigitChar : ∀ n, n < 16 → hexVal (hexDigitChar n) = some n := by
  decide

theorem ofHexChars_flatMap (l : List Nat) (h : ∀ b ∈ l, b < 256) :
    ofHexChars (l.flatMap byteToHex) = some l := by
  induction l with
  | nil => rfl
  | cons b t ih =>
    have hb : b < 256 := h b (List.mem_cons_self _ _)
    have ht : ∀ x ∈ t, x < 256 := fun x hx => h x (List.mem_cons_of_mem _ hx)
    have h1 : b / 16 < 16 := by omega
    have h2 : b % 16 < 16 := Nat.mod_lt _ (by norm_num)
    simp only [List.flatMap_cons, byteToHex, List.cons_append, List.nil_append]
    rw [ofHexChars]
    rw [hexVal_hexDigitChar _ h1, hexVal_hexDigitChar _ h2, ih ht]
    have hb16 : 16 * (b / 16) + b % 16 = b := by omega
    simp [hb16]

theorem bytesFromHex_toHex (l : List Nat) (h : ∀ b ∈ l, b < 256) :
    bytesFromHex (toHex l) = some l :=
  ofHexChars_flatMap l h

theorem toHex_length (l : List Nat) : (toHex l).length = 2 * l.length := by
  show (l.flatMap byteToHex).length = 2 * l.length
  induction l with
  | nil => rfl
  | cons b t ih =>
    simp only [List.flatMap_cons, byteToHex, List.length_append, List.length_cons,
      List.length_nil, ih]
    omega

theorem rndBytes_lt (rnd : Nat → Nat) (n : Nat) : ∀ b ∈ rndBytes rnd n, b < 256 := by
  intro b hb
  simp only [rndBytes, List.mem_map, List.mem_range] at hb
  obtain ⟨i, _, rfl⟩ := hb
  exact Nat.mod_lt _ (by norm_num)

theorem rndBytes_length (rnd : Nat → Nat) (n : Nat) : (rndBytes rnd n).length = n := by
  simp [rndBytes]

theorem bytesFromHex_token_hex (n : Nat) (rnd : Nat → Nat) :
    bytesFromHex (token_hex n rnd) = some (rndBytes rnd n) :=
  bytesFromHex_toHex _ (rndBytes_lt rnd n)

theorem token_hex_length (n : Nat) (rnd : Nat → Nat) :
    (token_hex n rnd).length = 2 * n := by
  rw [token_hex, toHex_length, rndBytes_length]

theorem token_hex_ne_empty (n : Nat) (rnd : Nat → Nat) (hn : n ≠ 0) :
    token_hex n rnd ≠ "" := by
  intro h
  have hl := token_hex_length n rnd
  rw [h] at hl
  have h0 : ("" : String).length = 0 := rfl
  omega

/-! ## Helper lemmas: digest lengths (proved symbolically, never by
evaluating the key-derivation function) -/

theorem shaRound_length (st : List Nat) (ki wi : Nat) :
    (shaRound st ki wi).length = st.length := by
  unfold shaRound
  split
  · simp
  · rfl

theorem foldl_shaRound_length (l : List (Nat × Nat)) (hs : List Nat) :
    (l.foldl (fun s p => shaRound s p.1 p.2) hs).length = hs.length := by
  induction l generalizing hs with
  | nil => rfl
  | cons p t ih => rw [List.foldl_cons, ih, shaRound_length]

theorem compressBlock_length (hs block : List Nat) (h8 : hs.length = 8) :
    (compressBlock hs block).length = 8 := by
  unfold compressBlock
  rw [List.length_zipWith, foldl_shaRound_length, h8]
  simp

theorem foldl_compressBlock_length (blocks : List (List Nat)) (hs : List Nat)
    (h8 : hs.length = 8) : (blocks.foldl compressBlock hs).length = 8 := by
  induction blocks generalizing hs with
  | nil => simpa using h8
  | cons b t ih => rw [List.foldl_cons]; exact ih _ (compressBlock_length _ _ h8)

theorem flatMap_wordToBytes_length (l : List Nat) :
    (l.flatMap wordToBytes).length = 4 * l.length := by
  induction l with
  | nil => rfl
  | cons x t ih =>
    simp only [List.flatMap_cons, wordToBytes, List.length_append, List.length_cons,
      List.length_nil, ih]
    omega

theorem sha256_length (msg : List Nat) : (sha256 msg).length = 32 := by
  unfold sha256
  rw [flatMap_wordToBytes_length, foldl_compressBlock_length _ _ (by rfl)]

theorem hmacSha256_length (key msg : List Nat) : (hmacSha256 key msg).length = 32 := by
  unfold hmacSha256
  exact sha256_length _

theorem pbkdf2Inner_length (p : List Nat) (k : Nat) :
    ∀ u acc : List Nat, acc.length = 32 → (pbkdf2Inner p u acc k).length = 32 := by
  induction k with
  | zero => intro u acc ha; simpa [pbkdf2Inner] using ha
  | succ k ih =>
    intro u acc ha
    rw [pbkdf2Inner]
    exact ih _ _ (by simp [List.length_zipWith, ha, hmacSha256_length])

theorem pbkdf2HmacSha256_length (p s : List Nat) (iters : Nat) (h : 0 < iters) :
    (pbkdf2HmacSha256 p s iters).length = 32 := by
  match iters, h with
  | Nat.succ k, _ =>
    rw [pbkdf2HmacSha256]
    exact pbkdf2Inner_length _ _ _ _ (hmacSha256_length _ _)

/-! ## Helper lemmas: `hash_password` unfoldings -/

theorem hash_password_some (p s : String) (bs : List Nat) (rnd : Nat → Nat)
    (hs : s ≠ "") (hbs : bytesFromHex s = some bs) :
    hash_password p (some s) rnd =
      .ok (toHex (pbkdf2HmacSha256 (strBytes p) bs 120000), s) := by
  simp [hash_password, hs, hbs]

theorem hash_password_none (p : String) (rnd : Nat → Nat) :
    hash_password p none rnd =
      .ok (toHex (pbkdf2HmacSha256 (strBytes p) (rndBytes rnd 16) 120000),
        token_hex 16 rnd) := by
  simp [hash_password, bytesFromHex_token_hex]

theorem hash_password_empty_salt (p : String) (rnd : Nat → Nat) :
    hash_password p (some "") rnd = hash_password p none rnd := by
  simp [hash_password]

theorem hash_password_invalid (p s : String) (rnd : Nat → Nat)
    (hs : s ≠ "") (hbs : bytesFromHex s = none) :
    hash_password p (some s) rnd =
      .error (.valueError "non-hexadecimal number found in fromhex() arg") := by
  simp [hash_password, hs, hbs]

theorem hash_password_hash_length (p : String) (salt : Option String)
    (rnd : Nat → Nat) (hsh s2 : String)
    (h : hash_password p salt rnd = .ok (hsh, s2)) : hsh.length = 64 := by
  have len : ∀ bs : List Nat,
      (toHex (pbkdf2HmacSha256 (strBytes p) bs 120000)).length = 64 := by
    intro bs
    rw [toHex_length, pbkdf2HmacSha256_length _ _ _ (by norm_num)]
  rcases salt with _ | s
  · rw [hash_password_none] at h
    simp only [Except.ok.injEq, Prod.mk.injEq] at h
    obtain ⟨h1, _⟩ := h
    subst h1
    exact len _
  · by_cases hs : s = ""
    · subst hs
      rw [hash_password_empty_salt, hash_password_none] at h
      simp only [Except.ok.injEq, Prod.mk.injEq] at h
      obtain ⟨h1, _⟩ := h
      subst h1
      exact len _
    · rcases hbs : bytesFromHex s with _ | bs
      · rw [hash_password_invalid p s rnd hs hbs] at h
        cases h
      · rw [hash_password_some p s bs rnd hs hbs] at h
        simp only [Except.ok.injEq, Prod.mk.injEq] at h
        obtain ⟨h1, _⟩ := h
        subst h1
        exact len _

/-! ## Helper lemmas: list operations -/

theorem find?_append_none {α : Type} (p : α → Bool) (l₁ l₂ : List α)
    (h : l₁.find? p = none) : (l₁ ++ l₂).find? p = l₂.find? p := by
  rw [List.find?_append, h, Option.none_or]

/-! ## Helper lemmas: handler unfoldings -/

theorem signup_new (st : Store) (tks : Tokens) (payload : SignupRequest)
    (rnd : Nat → Nat) (tok : String) (now : Nat)
    (h : st.user.find? (fun u => u.email == payload.email) = none) :
    signup st tks payload rnd tok now =
      ({st with user := st.user ++ [newUser payload rnd now]},
        (tok, ⟨payload.email, payload.name⟩) :: tks,
        .ok { token := tok, name := payload.name, email := payload.email }) := by
  simp [signup, h, hash_password_none, create_document, newUser]

theorem create_blog_existing (st : Store) (payload : BlogCreate) (now : Nat)
    (u : BlogPost) (hu : st.blogpost.find? (fun b => b.slug == payload.slug) = some u) :
    create_blog st payload now =
      ({st with blogpost := update_one_set st.blogpost payload.slug (blogOfPayload payload now)},
        .updated payload.slug) := by
  simp [create_blog, hu]

theorem create_blog_new (st : Store) (payload : BlogCreate) (now : Nat)
    (hu : st.blogpost.find? (fun b => b.slug == payload.slug) = none) :
    create_blog st payload now =
      ({st with blogpost := st.blogpost ++ [blogOfPayload payload now]},
        .created (toString st.blogpost.length)) := by
  simp [create_blog, hu, create_document]

theorem update_one_set_split (l : List BlogPost) (slug : String) (new : BlogPost)
    (u : BlogPost) (h : l.find? (fun b => b.slug == slug) = some u) :
    ∃ l1 l2, l = l1 ++ u :: l2 ∧ (∀ x ∈ l1, (x.slug == slug) = false) ∧
      (u.slug == slug) = true ∧
      update_one_set l slug new = l1 ++ new :: l2 := by
  induction l with
  | nil => cases h
  | cons b t ih =>
    by_cases hb : (b.slug == slug) = true
    · rw [show (b :: t).find? (fun x => x.slug == slug) = some b from
        List.find?_cons_of_pos _ hb] at h
      injection h with h
      subst h
      exact ⟨[], t, rfl, by simp, hb, by simp [update_one_set, hb]⟩
    · have hb' : (b.slug == slug) = false := by simpa using hb
      rw [show (b :: t).find? (fun x => x.slug == slug) =
          t.find? (fun x => x.slug == slug) from List.find?_cons_of_neg _ hb] at h
      obtain ⟨l1, l2, hsp, hl1, hu, hupd⟩ := ih h
      refine ⟨b :: l1, l2, by rw [hsp]; rfl, ?_, hu, ?_⟩
      · intro x hx
        rcases List.mem_cons.mp hx with rfl | hx
        · exact hb'
        · exact hl1 x hx
      · simp [update_one_set, hb', hupd]

theorem seedStep_miss (st : Store) (created : Nat) (s : BlogCreate) (now : Nat)
    (h : st.blogpost.find? (fun b => b.slug == s.slug) = none) :
    seedStep now (st, created) s =
      ({st with blogpost := st.blogpost ++ [blogOfPayload s now]}, created + 1) := by
  simp [seedStep, h, create_document]

theorem seedStep_hit (st : Store) (created : Nat) (s : BlogCreate) (now : Nat)
    (u : BlogPost) (h : st.blogpost.find? (fun b => b.slug == s.slug) = some u) :
    seedStep now (st, created) s = (st, created) := by
  simp [seedStep, h]

/-! ## Claim C10 -/

/-- C10: every call to the bounded listing operation (`list_blogs`, via the
spec-modelled `get_documents`) with a limit of zero or below returns the same
result as a call with the default limit of 20 — up to the default bound of
records, not zero results. -/
theorem c10_nonpositive_limit_is_default (st : Store) (limit : Int)
    (h : limit ≤ 0) : list_blogs st limit = list_blogs st 20 := by
  unfold list_blogs get_documents
  rw [if_pos h, if_neg (by norm_num)]

/-- Witness for C10 at the concrete limit -3 on the empty store. -/
theorem c10_nonpositive_limit_is_default_witness :
    ((-3 : Int) ≤ 0) ∧ list_blogs emptyStore (-3) = list_blogs emptyStore 20 :=
  ⟨by norm_num, c10_nonpositive_limit_is_default emptyStore (-3) (by norm_num)⟩

/-! ## Claim C8 -/

/-- C8 counterexample: with the document store unreachable (`db = none`),
`login` fails with the very same 401 "Invalid credentials" raised for a
nonexistent email on a reachable empty store, the blog lookup reports the
"no matching record" 404, and the dashboard counts are the same as for a
reachable empty store — no operation surfaces a distinct storage error. -/
theorem c8_counterexample :
    login none [] { email := "user@example.com", password := "pw" } (fun _ => 0) "tok" =
      login (some emptyStore) [] { email := "user@example.com", password := "pw" }
        (fun _ => 0) "tok" ∧
    login none [] { email := "user@example.com", password := "pw" } (fun _ => 0) "tok" =
      ([], .error (.http 401 "Invalid credentials")) ∧
    get_blog none "a-slug" = .error (.http 404 "Post not found") ∧
    dashboard_counts none = dashboard_counts (some emptyStore) :=
  ⟨rfl, rfl, rfl, rfl⟩

/-- C8 (amended): when the underlying document store is unreachable, no
operation surfaces a distinct StorageUnavailable error; instead each
silently substitutes the empty/"no match" result: the signup existence
check yields none, login raises the generic 401 AuthenticationFailure,
the blog lookup raises 404 NotFound, and the dashboard counts are 0. -/
theorem c8_unavailable_conflated_with_empty (req : LoginRequest) (tks : Tokens)
    (rnd : Nat → Nat) (tok : String) (slug email : String) :
    login none tks req rnd tok = (tks, .error (.http 401 "Invalid credentials")) ∧
    signup_existing_check none email = none ∧
    get_blog none slug = .error (.http 404 "Post not found") ∧
    dashboard_counts none = (0, 0, 0) :=
  ⟨rfl, rfl, rfl, rfl⟩

/-! ## Claim C7 -/

/-- C7: signup with an email that already has an Account fails with the
Conflict error 400 "Email already registered" and leaves both the user
collection and the token registry exactly unchanged — no Account record is
created and no token is issued on the failing call. -/
theorem c7_signup_conflict_unchanged (st : Store) (tks : Tokens)
    (payload : SignupRequest) (rnd : Nat → Nat) (tok : String) (now : Nat)
    (u : User) (h : st.user.find? (fun x => x.email == payload.email) = some u) :
    signup st tks payload rnd tok now =
      (st, tks, .error (.http 400 "Email already registered")) := by
  simp [signup, h]

/-- Witness for C7 on a concrete store whose single account holds the
requested email. -/
theorem c7_signup_conflict_unchanged_witness :
    (c7Store.user.find? (fun x => x.email == "a@b.c") = some c7User) ∧
    signup c7Store [] { name := "m", email := "a@b.c", password := "pw" }
        (fun _ => 0) "tok" 0 =
      (c7Store, [], .error (.http 400 "Email already registered")) :=
  ⟨by decide,
    c7_signup_conflict_unchanged c7Store [] { name := "m", email := "a@b.c", password := "pw" }
      (fun _ => 0) "tok" 0 c7User (by decide)⟩

/-! ## Claim C9 -/

/-- C9 counterexample: `hash_password` does throw for a malformed salt —
on the non-hex salt "zz", `bytes.fromhex` raises `ValueError`, refuting
"derive never throws for malformed salt input". -/
theorem c9_counterexample :
    hash_password "password" (some "zz") (fun _ => 0) =
      .error (.valueError "non-hexadecimal number found in fromhex() arg") :=
  hash_password_invalid "password" "zz" (fun _ => 0) (by decide) (by decide)

/-- C9 (amended): `hash_password` raises `ValueError` on a non-hex salt,
and the login path propagates that exception uncaught; the resulting
error is distinct from the 401 AuthenticationFailure (corrupted stored
salts are not reported as wrong-password), but it is a bare `ValueError`,
not a dedicated IntegrityError. -/
theorem c9_bad_salt_not_auth_failure (st : Store) (tks : Tokens)
    (req : LoginRequest) (rnd : Nat → Nat) (tok : String) (u : User)
    (hf : st.user.find? (fun x => x.email == req.email) = some u)
    (hs : u.salt ≠ "") (hbad : bytesFromHex u.salt = none) :
    login (some st) tks req rnd tok =
      (tks, .error (.valueError "non-hexadecimal number found in fromhex() arg")) ∧
    AppError.valueError "non-hexadecimal number found in fromhex() arg" ≠
      AppError.http 401 "Invalid credentials" := by
  refine ⟨?_, by simp⟩
  simp [login, hf, hash_password_invalid req.password u.salt rnd hs hbad]

/-- Witness for C9 on a concrete store whose account stores the non-hex
salt "zz". -/
theorem c9_bad_salt_not_auth_failure_witness :
    (c9Store.user.find? (fun x => x.email == "e@x.com") = some c9User ∧
     c9User.salt ≠ "" ∧ bytesFromHex c9User.salt = none) ∧
    (login (some c9Store) [] { email := "e@x.com", password := "pw" } (fun _ => 0) "tok" =
      ([], .error (.valueError "non-hexadecimal number found in fromhex() arg")) ∧
     AppError.valueError "non-hexadecimal number found in fromhex() arg" ≠
       AppError.http 401 "Invalid credentials") :=
  ⟨⟨by decide, by decide, by decide⟩,
    c9_bad_salt_not_auth_failure c9Store [] { email := "e@x.com", password := "pw" }
      (fun _ => 0) "tok" c9User (by decide) (by decide) (by decide)⟩

/-! ## Claim C3 -/

/-- C3: a login for a nonexistent email and a login for an existing email
with a wrong password produce the identical failure — the same 401
"Invalid credentials" error, with identical kind, status and message — so
the response does not reveal whether the account exists. -/
theorem c3_auth_failures_identical (st : Store) (tks : Tokens)
    (req1 req2 : LoginRequest) (r1 r2 : Nat → Nat) (t1 t2 : String) (u : User)
    (h1 : st.user.find? (fun x => x.email == req1.email) = none)
    (h2 : st.user.find? (fun x => x.email == req2.email) = some u)
    (hs : u.salt ≠ "") (hbs : ∃ bs, bytesFromHex u.salt = some bs)
    (hwrong : hash_password req2.password (some u.salt) r2 ≠
      .ok (u.password_hash, u.salt)) :
    login (some st) tks req1 r1 t1 = (tks, .error (.http 401 "Invalid credentials")) ∧
    login (some st) tks req2 r2 t2 = (tks, .error (.http 401 "Invalid credentials")) := by
  constructor
  · simp [login, h1]
  · obtain ⟨bs, hbs⟩ := hbs
    have hok := hash_password_some req2.password u.salt bs r2 hs hbs
    have hne : toHex (pbkdf2HmacSha256 (strBytes req2.password) bs 120000) ≠
        u.password_hash := by
      intro he
      exact hwrong (by rw [hok, he])
    simp [login, h2, hok, hne]

/-- Witness for C3: a store with one account ("a@b.c", stored hash "x"),
probed with the unknown email "missing@b.c" and with "a@b.c" plus a wrong
password (the re-derived hash has 64 hex characters, so it cannot equal
the 1-character stored hash). -/
theorem c3_auth_failures_identical_witness :
    (c3Store.user.find? (fun x => x.email == "missing@b.c") = none ∧
     c3Store.user.find? (fun x => x.email == "a@b.c") = some c3User ∧
     c3User.salt ≠ "" ∧ bytesFromHex c3User.salt = some [0] ∧
     hash_password "pw" (some c3User.salt) (fun _ => 0) ≠
       .ok (c3User.password_hash, c3User.salt)) ∧
    (login (some c3Store) [] { email := "missing@b.c", password := "pw2" }
        (fun _ => 0) "t1" = ([], .error (.http 401 "Invalid credentials")) ∧
     login (some c3Store) [] { email := "a@b.c", password := "pw" }
        (fun _ => 0) "t2" = ([], .error (.http 401 "Invalid credentials"))) := by
  have hwrong : hash_password "pw" (some c3User.salt) (fun _ => 0) ≠
      .ok (c3User.password_hash, c3User.salt) := by
    intro h
    exact absurd (hash_password_hash_length "pw" (some c3User.salt) (fun _ => 0)
      c3User.password_hash c3User.salt h) (by decide)
  exact ⟨⟨by decide, by decide, by decide, by decide, hwrong⟩,
    c3_auth_failures_identical c3Store [] { email := "missing@b.c", password := "pw2" }
      { email := "a@b.c", password := "pw" } (fun _ => 0) (fun _ => 0) "t1" "t2" c3User
      (by decide) (by decide) (by decide) ⟨[0], by decide⟩ hwrong⟩

/-! ## Claim C2 -/

/-- C2: a blog publish whose slug matches an existing record replaces the
entire content of that record with the new record (built from the payload,
every schema field included) while all other records are untouched, creates
no new record, and reports "updated" with the slug; a publish whose slug
matches no record appends exactly one record and reports "created" with the
new identifier. -/
theorem c2_upsert_by_slug (st : Store) (payload : BlogCreate) (now : Nat) :
    ((∃ u, st.blogpost.find? (fun b => b.slug == payload.slug) = some u) →
      (create_blog st payload now).2 = .updated payload.slug ∧
      (create_blog st payload now).1.blogpost.length = st.blogpost.length ∧
      (create_blog st payload now).1.user = st.user ∧
      ∃ l1 u l2, st.blogpost = l1 ++ u :: l2 ∧
        (∀ x ∈ l1, (x.slug == payload.slug) = false) ∧
        (u.slug == payload.slug) = true ∧
        (create_blog st payload now).1.blogpost =
          l1 ++ blogOfPayload payload now :: l2) ∧
    (st.blogpost.find? (fun b => b.slug == payload.slug) = none →
      (create_blog st payload now).2 = .created (toString st.blogpost.length) ∧
      (create_blog st payload now).1.blogpost =
        st.blogpost ++ [blogOfPayload payload now]) := by
  constructor
  · rintro ⟨u, hu⟩
    rw [create_blog_existing st payload now u hu]
    obtain ⟨l1, l2, hsp, hl1, hus, hupd⟩ :=
      update_one_set_split st.blogpost payload.slug (blogOfPayload payload now) u hu
    refine ⟨rfl, ?_, rfl, l1, u, l2, hsp, hl1, hus, hupd⟩
    rw [hupd, hsp]
    simp
  · intro hu
    rw [create_blog_new st payload now hu]
    exact ⟨rfl, rfl⟩

/-- Witness for C2: updating the slug "s0" on a one-record store, and
creating it on the empty store. -/
theorem c2_upsert_by_slug_witness :
    ((∃ u, c2Store.blogpost.find? (fun b => b.slug == c2Payload.slug) = some u) ∧
     emptyStore.blogpost.find? (fun b => b.slug == c2Payload.slug) = none) ∧
    ((create_blog c2Store c2Payload 5).2 = .updated c2Payload.slug ∧
     (create_blog c2Store c2Payload 5).1.blogpost.length = c2Store.blogpost.length ∧
     (create_blog c2Store c2Payload 5).1.user = c2Store.user ∧
     ∃ l1 u l2, c2Store.blogpost = l1 ++ u :: l2 ∧
       (∀ x ∈ l1, (x.slug == c2Payload.slug) = false) ∧
       (u.slug == c2Payload.slug) = true ∧
       (create_blog c2Store c2Payload 5).1.blogpost =
         l1 ++ blogOfPayload c2Payload 5 :: l2) ∧
    ((create_blog emptyStore c2Payload 5).2 =
      .created (toString emptyStore.blogpost.length) ∧
     (create_blog emptyStore c2Payload 5).1.blogpost =
       emptyStore.blogpost ++ [blogOfPayload c2Payload 5]) :=
  ⟨⟨⟨c2Post, by decide⟩, by decide⟩,
    (c2_upsert_by_slug c2Store c2Payload 5).1 ⟨c2Post, by decide⟩,
    (c2_upsert_by_slug emptyStore c2Payload 5).2 (by decide)⟩

/-! ## Claim C4 -/

/-- C4: starting from a store with no sample slugs present, the first seed
call returns a created count equal to the number of samples; every
subsequent call with the same samples returns 0 and leaves the store
unchanged (hence after any number of further calls the store is still the
same), and exactly one record per sample slug is present. -/
theorem c4_seed_idempotent (st : Store) (now : Nat)
    (h : ∀ s ∈ samples, st.blogpost.find? (fun b => b.slug == s.slug) = none) :
    (seed_content st now).2 = samples.length ∧
    (∀ now2, seed_content (seed_content st now).1 now2 = ((seed_content st now).1, 0)) ∧
    (∀ s ∈ samples,
      (((seed_content st now).1.blogpost.filter (fun b => b.slug == s.slug)).length = 1)) ∧
    (∀ n now2, (fun σ => (seed_content σ now2).1)^[n] (seed_content st now).1 =
      (seed_content st now).1) := by
  have h1 := h sample1 (by simp [samples])
  have h2 := h sample2 (by simp [samples])
  have hstep1 : seedStep now (st, 0) sample1 =
      ({st with blogpost := st.blogpost ++ [blogOfPayload sample1 now]}, 1) :=
    seedStep_miss st 0 sample1 now h1
  have hfind2 : (st.blogpost ++ [blogOfPayload sample1 now]).find?
      (fun b => b.slug == sample2.slug) = none := by
    rw [find?_append_none _ _ _ h2]
    rfl
  have hstep2 : seedStep now
      ({st with blogpost := st.blogpost ++ [blogOfPayload sample1 now]}, 1) sample2 =
      ({st with blogpost :=
          (st.blogpost ++ [blogOfPayload sample1 now]) ++ [blogOfPayload sample2 now]}, 2) :=
    seedStep_miss _ 1 sample2 now hfind2
  have hseed : seed_content st now =
      ({st with blogpost :=
          (st.blogpost ++ [blogOfPayload sample1 now]) ++ [blogOfPayload sample2 now]}, 2) := by
    show List.foldl (seedStep now) (st, 0) [sample1, sample2] = _
    rw [List.foldl_cons, hstep1, List.foldl_cons, hstep2, List.foldl_nil]
  have hf1 : ((st.blogpost ++ [blogOfPayload sample1 now]) ++
      [blogOfPayload sample2 now]).find? (fun b => b.slug == sample1.slug) =
      some (blogOfPayload sample1 now) := by
    rw [List.find?_append, find?_append_none _ _ _ h1]
    rfl
  have hf2 : ((st.blogpost ++ [blogOfPayload sample1 now]) ++
      [blogOfPayload sample2 now]).find? (fun b => b.slug == sample2.slug) =
      some (blogOfPayload sample2 now) := by
    rw [find?_append_none _ _ _ hfind2]
    rfl
  have hsecond : ∀ now2, seed_content
      {st with blogpost :=
        (st.blogpost ++ [blogOfPayload sample1 now]) ++ [blogOfPayload sample2 now]} now2 =
      ({st with blogpost :=
        (st.blogpost ++ [blogOfPayload sample1 now]) ++ [blogOfPayload sample2 now]}, 0) := by
    intro now2
    show List.foldl (seedStep now2) (_, 0) [sample1, sample2] = _
    rw [List.foldl_cons, seedStep_hit _ 0 sample1 now2 _ hf1,
      List.foldl_cons, seedStep_hit _ 0 sample2 now2 _ hf2, List.foldl_nil]
  refine ⟨by rw [hseed]; rfl, ?_, ?_, ?_⟩
  · intro now2
    rw [hseed]
    exact hsecond now2
  · intro s hs
    have hnil1 : st.blogpost.filter (fun b => b.slug == sample1.slug) = [] :=
      List.filter_eq_nil_iff.mpr (List.find?_eq_none.mp h1)
    have hnil2 : st.blogpost.filter (fun b => b.slug == sample2.slug) = [] :=
      List.filter_eq_nil_iff.mpr (List.find?_eq_none.mp h2)
    rcases (by simpa [samples] using hs : s = sample1 ∨ s = sample2) with rfl | rfl
    · rw [hseed]
      show (((st.blogpost ++ [blogOfPayload sample1 now]) ++
        [blogOfPayload sample2 now]).filter (fun b => b.slug == sample1.slug)).length = 1
      rw [List.filter_append, List.filter_append, hnil1]
      rfl
    · rw [hseed]
      show (((st.blogpost ++ [blogOfPayload sample1 now]) ++
        [blogOfPayload sample2 now]).filter (fun b => b.slug == sample2.slug)).length = 1
      rw [List.filter_append, List.filter_append, hnil2]
      rfl
  · intro n now2
    induction n with
    | zero => rfl
    | succ k ihk =>
      have hfix : (seed_content (seed_content st now).1 now2).1 = (seed_content st now).1 := by
        rw [hseed]
        rw [hsecond now2]
      rw [Function.iterate_succ_apply, hfix, ihk]

/-- Witness for C4 on the empty store. -/
theorem c4_seed_idempotent_witness :
    (∀ s ∈ samples, emptyStore.blogpost.find? (fun b => b.slug == s.slug) = none) ∧
    ((seed_content emptyStore 0).2 = samples.length ∧
     (∀ now2, seed_content (seed_content emptyStore 0).1 now2 =
       ((seed_content emptyStore 0).1, 0)) ∧
     (∀ s ∈ samples,
       (((seed_content emptyStore 0).1.blogpost.filter
         (fun b => b.slug == s.slug)).length = 1)) ∧
     (∀ n now2, (fun σ => (seed_content σ now2).1)^[n] (seed_content emptyStore 0).1 =
       (seed_content emptyStore 0).1)) :=
  ⟨by decide, c4_seed_idempotent emptyStore 0 (by decide)⟩

/-! ## Claim C6 -/

/-- C6 counterexample: starting from the empty store, signing up
"Alice@x.com" and then "alice@x.com" both succeed — the second signup is
not rejected with Conflict even though the two emails are equal up to
letter case — leaving two Accounts whose emails differ only in case, so
email is not a case-insensitive unique identity key. -/
theorem c6_counterexample :
    (signup emptyStore [] c6Req1 (fun _ => 0) "t1" 0).1.user.map User.email =
      ["Alice@x.com"] ∧
    (signup (signup emptyStore [] c6Req1 (fun _ => 0) "t1" 0).1
        ((signup emptyStore [] c6Req1 (fun _ => 0) "t1" 0).2.1) c6Req2
        (fun _ => 0) "t2" 0).2.2 =
      .ok { token := "t2", name := "a", email := "alice@x.com" } ∧
    (signup (signup emptyStore [] c6Req1 (fun _ => 0) "t1" 0).1
        ((signup emptyStore [] c6Req1 (fun _ => 0) "t1" 0).2.1) c6Req2
        (fun _ => 0) "t2" 0).1.user.map User.email =
      ["Alice@x.com", "alice@x.com"] ∧
    "Alice@x.com" ≠ "alice@x.com" ∧
    lowerStr "Alice@x.com" = lowerStr "alice@x.com" :=
  ⟨rfl, rfl, rfl, by decide, rfl⟩

/-- C6 (amended): email is a case-sensitive (exact-match) unique key, not
a case-insensitive one: signup rejects with Conflict exactly when an
Account with a byte-identical email exists, and signup preserves exact
uniqueness of emails across Accounts. -/
theorem c6_email_unique_case_sensitive (st : Store) (tks : Tokens)
    (payload : SignupRequest) (rnd : Nat → Nat) (tok : String) (now : Nat) :
    ((st.user.find? (fun u => u.email == payload.email)).isSome = true →
      signup st tks payload rnd tok now =
        (st, tks, .error (.http 400 "Email already registered"))) ∧
    (List.Pairwise (fun a b : User => a.email ≠ b.email) st.user →
      List.Pairwise (fun a b : User => a.email ≠ b.email)
        (signup st tks payload rnd tok now).1.user) := by
  constructor
  · intro h
    obtain ⟨u, hu⟩ := Option.isSome_iff_exists.mp h
    simp [signup, hu]
  · intro hp
    rcases hfind : st.user.find? (fun u => u.email == payload.email) with _ | u
    · rw [signup_new st tks payload rnd tok now hfind]
      show List.Pairwise (fun a b : User => a.email ≠ b.email)
        (st.user ++ [newUser payload rnd now])
      refine List.pairwise_append.mpr ⟨hp, ?_, ?_⟩
      · refine List.Pairwise.cons ?_ List.Pairwise.nil
        intro b hb
        cases hb
      · intro a ha b hb
        have hane := List.find?_eq_none.mp hfind a ha
        rcases List.mem_singleton.mp hb with rfl
        intro he
        exact hane (by rw [he]; exact beq_self_eq_true _)
    · have he : signup st tks payload rnd tok now =
          (st, tks, .error (.http 400 "Email already registered")) := by
        simp [signup, hfind]
      rw [he]
      exact hp

/-- Witness for C6 (amended) on a one-account store probed with its own
email. -/
theorem c6_email_unique_case_sensitive_witness :
    ((c6Store.user.find? (fun u => u.email == "a@b.c")).isSome = true ∧
     List.Pairwise (fun a b : User => a.email ≠ b.email) c6Store.user) ∧
    (signup c6Store [] { name := "m", email := "a@b.c", password := "pw" }
        (fun _ => 0) "tok" 0 =
      (c6Store, [], .error (.http 400 "Email already registered")) ∧
     List.Pairwise (fun a b : User => a.email ≠ b.email)
       (signup c6Store [] { name := "m", email := "a@b.c", password := "pw" }
         (fun _ => 0) "tok" 0).1.user) := by
  have hpair : List.Pairwise (fun a b : User => a.email ≠ b.email) c6Store.user := by
    refine List.Pairwise.cons ?_ List.Pairwise.nil
    intro b hb
    cases hb
  have h := c6_email_unique_case_sensitive c6Store []
    { name := "m", email := "a@b.c", password := "pw" } (fun _ => 0) "tok" 0
  exact ⟨⟨by decide, hpair⟩, h.1 (by decide), h.2 hpair⟩

/-! ## Claim C1 -/

/-- C1 counterexample: the empty string is a valid hex salt
(`bytes.fromhex("")` succeeds), yet `hash_password` is not deterministic
on it — Python's falsy `if not salt:` check regenerates a fresh random
salt, so two calls with the same (password, salt) pair but different
randomness return different (hash, salt) results. -/
theorem c1_counterexample :
    bytesFromHex "" = some [] ∧
    hash_password "pw" (some "") (fun _ => 0) ≠
      hash_password "pw" (some "") (fun _ => 1) := by
  refine ⟨rfl, ?_⟩
  rw [hash_password_empty_salt, hash_password_empty_salt,
    hash_password_none, hash_password_none]
  intro hcontra
  simp only [Except.ok.injEq, Prod.mk.injEq] at hcontra
  exact absurd hcontra.2 (by decide)

/-- C1 (amended): for every nonempty salt, `hash_password` is
deterministic — it does not depend on the randomness source — and
verification round-trips: after a signup stores the derived hash and
salt, a login with the same password re-derives the identical digest and
succeeds.  (For the empty — falsy — salt, a fresh random salt is
generated instead, as the counterexample shows.) -/
theorem c1_deterministic_roundtrip (p s : String) (hs : s ≠ "")
    (st : Store) (tks : Tokens) (req : SignupRequest) (rnd rl : Nat → Nat)
    (t1 t2 : String) (now : Nat)
    (hnew : st.user.find? (fun u => u.email == req.email) = none) :
    (∀ r1 r2 : Nat → Nat, hash_password p (some s) r1 = hash_password p (some s) r2) ∧
    (login (some (signup st tks req rnd t1 now).1) ((signup st tks req rnd t1 now).2.1)
        { email := req.email, password := req.password } rl t2).2 =
      .ok { token := t2, name := req.name, email := req.email } := by
  constructor
  · intro r1 r2
    rcases hbs : bytesFromHex s with _ | bs
    · rw [hash_password_invalid p s r1 hs hbs, hash_password_invalid p s r2 hs hbs]
    · rw [hash_password_some p s bs r1 hs hbs, hash_password_some p s bs r2 hs hbs]
  · rw [signup_new st tks req rnd t1 now hnew]
    have hfind : (st.user ++ [newUser req rnd now]).find?
        (fun u => u.email == req.email) = some (newUser req rnd now) := by
      rw [find?_append_none _ _ _ hnew]
      exact List.find?_cons_of_pos _ (beq_self_eq_true req.email)
    have hhp := hash_password_some req.password (token_hex 16 rnd) (rndBytes rnd 16) rl
      (token_hex_ne_empty 16 rnd (by norm_num)) (bytesFromHex_token_hex 16 rnd)
    simp [login, hfind, hnew, newUser, hhp]

/-- Witness for C1 (amended) with salt "00" and a signup/login round trip
from the empty store under two different randomness sources. -/
theorem c1_deterministic_roundtrip_witness :
    (("00" : String) ≠ "" ∧
     emptyStore.user.find? (fun u => u.email == "a@b.c") = none) ∧
    ((∀ r1 r2 : Nat → Nat,
       hash_password "pw" (some "00") r1 = hash_password "pw" (some "00") r2) ∧
     (login (some (signup emptyStore [] { name := "n", email := "a@b.c", password := "pw" }
           (fun _ => 0) "t1" 0).1)
         ((signup emptyStore [] { name := "n", email := "a@b.c", password := "pw" }
           (fun _ => 0) "t1" 0).2.1)
         { email := "a@b.c", password := "pw" } (fun _ => 1) "t2").2 =
       .ok { token := "t2", name := "n", email := "a@b.c" }) :=
  ⟨⟨by decide, by decide⟩,
    c1_deterministic_roundtrip "pw" "00" (by decide) emptyStore []
      { name := "n", email := "a@b.c", password := "pw" }
      (fun _ => 0) (fun _ => 1) "t1" "t2" 0 (by decide)⟩

/-! ## Claim C5 -/

/-- C5: `hash_password` computes PBKDF2 with the HMAC-SHA-256
pseudorandom function over the password bytes, using the hex-decoded
salt, with exactly 120,000 iterations and a derived-key length equal to
the SHA-256 output size (32 bytes), returning the digest hex-encoded; and
when no salt is supplied it draws a fresh random 16-byte salt and returns
it hex-encoded alongside the digest. -/
theorem c5_derive_pbkdf2_sha256 (p s : String) (bs : List Nat) (rnd : Nat → Nat)
    (hs : s ≠ "") (hbs : bytesFromHex s = some bs) :
    hash_password p (some s) rnd =
      .ok (toHex (pbkdf2HmacSha256 (strBytes p) bs 120000), s) ∧
    (pbkdf2HmacSha256 (strBytes p) bs 120000).length = (sha256 (strBytes p)).length ∧
    (sha256 (strBytes p)).length = 32 ∧
    hash_password p none rnd =
      .ok (toHex (pbkdf2HmacSha256 (strBytes p) (rndBytes rnd 16) 120000),
        toHex (rndBytes rnd 16)) ∧
    (rndBytes rnd 16).length = 16 := by
  refine ⟨hash_password_some p s bs rnd hs hbs, ?_, sha256_length _,
    hash_password_none p rnd, rndBytes_length rnd 16⟩
  rw [pbkdf2HmacSha256_length _ _ _ (by norm_num), sha256_length]

/-- Witness for C5 with password "pw" and salt "00". -/
theorem c5_derive_pbkdf2_sha256_witness :
    (("00" : String) ≠ "" ∧ bytesFromHex "00" = some [0]) ∧
    (hash_password "pw" (some "00") (fun _ => 0) =
       .ok (toHex (pbkdf2HmacSha256 (strBytes "pw") [0] 120000), "00") ∧
     (pbkdf2HmacSha256 (strBytes "pw") [0] 120000).length =
       (sha256 (strBytes "pw")).length ∧
     (sha256 (strBytes "pw")).length = 32 ∧
     hash_password "pw" none (fun _ => 0) =
       .ok (toHex (pbkdf2HmacSha256 (strBytes "pw") (rndBytes (fun _ => 0) 16) 120000),
         toHex (rndBytes (fun _ => 0) 16)) ∧
     (rndBytes (fun _ => 0) 16).length = 16) :=
  ⟨⟨by decide, by decide⟩,
    c5_derive_pbkdf2_sha256 "pw" "00" [0] (fun _ => 0) (by decide) (by decide)⟩

end App
